import Mathlib

/-!
Shallow embedding of the task-aggregation core of the `my_todoo` repository:
the canonical task model (`src/types/task.ts`), the provider normalizers
(`src/api/unified.ts`), the provider connectors' retry and write-payload
logic (`src/api/notion.ts`, `src/api/todoist.ts`), and the aggregation
service with its single-slot cache (`src/api/taskService.ts`).

JavaScript conventions are modelled as follows: a possibly-missing or
`undefined`/`null` value is an `Option`; the nullish-coalescing operator
`??` is `Option.getD`; a truthiness test on a string (`if (x)` / `x || y`)
is an emptiness test; the current clock (`new Date().toISOString()`) is an
explicit `now` argument; network calls are explicit outcome arguments of
type `Except`, and the set of provider calls a function issues is returned
as an explicit trace.
-/

namespace MyTodoo

/-- Canonical task status (src/types/task.ts, `TaskStatus`). -/
inductive TaskStatus where
  | todo
  | in_progress
  | done
  deriving DecidableEq, Repr

/-- Canonical task priority (src/types/task.ts, `TaskPriority`). -/
inductive TaskPriority where
  | low
  | medium
  | high
  | urgent
  deriving DecidableEq, Repr

/-- Canonical task record (src/types/task.ts, `UnifiedTask`).  The `source`
field is a string at runtime in the TypeScript union type, so it is a
`String` here; the normalizers only ever produce `"notion"` or
`"todoist"`. -/
structure UnifiedTask where
  id : String
  source : String
  sourceId : String
  title : String
  description : Option String
  status : TaskStatus
  priority : TaskPriority
  dueDate : Option String
  createdAt : String
  updatedAt : String
  labels : Option (List String)
  projectName : Option String
  deriving DecidableEq, Repr

/-- One fragment of a Notion rich-text value; the code reads only the
optional `plain_text` field (src/api/unified.ts, `richTextToPlain`). -/
structure RichTextItem where
  plain_text : Option String := none
  deriving DecidableEq, Repr

/-- A Notion select/status value; the code reads only the optional
`name` field. -/
structure SelectValue where
  name : Option String := none
  deriving DecidableEq, Repr

/-- A Notion date value; the code reads only the optional `start` field. -/
structure DateValue where
  start : Option String := none
  deriving DecidableEq, Repr

/-- A Notion multi-select entry, with a required `name`
(src/api/unified.ts line 75 casts to `Array<{ name: string }>`). -/
structure MultiSelectItem where
  name : String
  deriving DecidableEq, Repr

/-- A Notion property object, carrying whichever of the shapes the
normalizer inspects happen to be present (each cast in
src/api/unified.ts lines 49-82 reads one optional field). -/
structure NotionProp where
  title : Option (List RichTextItem) := none
  rich_text : Option (List RichTextItem) := none
  status : Option SelectValue := none
  select : Option SelectValue := none
  date : Option DateValue := none
  multi_select : Option (List MultiSelectItem) := none
  deriving DecidableEq, Repr

/-- A raw Notion page as the normalizer consumes it: an id, an optional
`properties` object (an assoc list keyed by property name), and optional
timestamp strings (src/api/unified.ts, `notionPageToTask`). -/
structure NotionPage where
  id : String
  properties : Option (List (String × NotionProp)) := none
  created_time : Option String := none
  last_edited_time : Option String := none
  deriving DecidableEq, Repr

/-- Embeds `richTextToPlain` (src/api/unified.ts lines 10-13): a non-array value
yields the empty string; an array yields the `plain_text` fields (missing
ones as the empty string) concatenated in order with no separator. -/
def richTextToPlain (prop : Option (List RichTextItem)) : String :=
  match prop with
  | none => ""
  | some items => String.join (items.map (fun rt => rt.plain_text.getD ""))

/-- JS `String.prototype.toLowerCase` restricted to its ASCII action,
character by character (the synonym tables and written status/priority
names are all ASCII). -/
def jsToLower (s : String) : String :=
  String.mk (s.data.map Char.toLower)

/-- JS `String.prototype.trim`: strip leading and trailing whitespace. -/
def jsTrim (s : String) : String :=
  String.mk
    (((s.data.dropWhile Char.isWhitespace).reverse.dropWhile Char.isWhitespace).reverse)

/-- Embeds `mapNotionStatus` (src/api/unified.ts lines 19-25).  A missing or empty
raw value (both falsy in JS) is `todo`; otherwise the value is lowercased,
trimmed and matched against the synonym lists, defaulting to `todo`. -/
def mapNotionStatus (raw : Option String) : TaskStatus :=
  match raw with
  | none => TaskStatus.todo
  | some s =>
    if s = "" then TaskStatus.todo
    else
      let lower := jsTrim (jsToLower s)
      if ["done", "complete", "completed"].contains lower then TaskStatus.done
      else if ["in progress", "in_progress", "doing", "started"].contains lower then
        TaskStatus.in_progress
      else TaskStatus.todo

/-- Embeds `mapNotionPriority` (src/api/unified.ts lines 30-37). -/
def mapNotionPriority (raw : Option String) : TaskPriority :=
  match raw with
  | none => TaskPriority.medium
  | some s =>
    if s = "" then TaskPriority.medium
    else
      let lower := jsTrim (jsToLower s)
      if ["urgent", "critical"].contains lower then TaskPriority.urgent
      else if ["high"].contains lower then TaskPriority.high
      else if ["low"].contains lower then TaskPriority.low
      else TaskPriority.medium

/-- The chain `props[k1] ?? props[k2] ?? ... ?? {}` used for every property
lookup in `notionPageToTask`: the first key bound in the properties object
wins, and a missing properties object or missing keys yield the empty
property object. -/
def lookupPropChain (props : Option (List (String × NotionProp))) (keys : List String) :
    NotionProp :=
  match props with
  | none => {}
  | some ps => (keys.findSome? (fun k => ps.lookup k)).getD {}

/-- The title property of a Notion page:
`props['Name'] ?? props['Title'] ?? props['title'] ?? {}`
(src/api/unified.ts line 49). -/
def notionTitleProp (page : NotionPage) : NotionProp :=
  lookupPropChain page.properties ["Name", "Title", "title"]

/-- Embeds `notionPageToTask` (src/api/unified.ts lines 45-103).  `now` stands for
`new Date().toISOString()` evaluated at the moment of the call. -/
def notionPageToTask (now : String) (page : NotionPage) : UnifiedTask :=
  let titleProp := notionTitleProp page
  let title0 := richTextToPlain titleProp.title
  let title := if title0 = "" then "Untitled" else title0
  let descProp := lookupPropChain page.properties ["Description", "description"]
  let desc0 := richTextToPlain descProp.rich_text
  let description := if desc0 = "" then none else some desc0
  let statusProp := lookupPropChain page.properties ["Status", "status"]
  let status := mapNotionStatus (statusProp.status.bind SelectValue.name)
  let priorityProp := lookupPropChain page.properties ["Priority", "priority"]
  let priority := mapNotionPriority (priorityProp.select.bind SelectValue.name)
  let dueProp := lookupPropChain page.properties ["Due", "Due Date", "due_date"]
  let dueDate := dueProp.date.bind DateValue.start
  let tagsProp := lookupPropChain page.properties ["Tags", "Labels", "tags"]
  let labels := tagsProp.multi_select.map (fun xs => xs.map MultiSelectItem.name)
  let projectProp := lookupPropChain page.properties ["Project", "project"]
  let projectName := projectProp.select.bind SelectValue.name
  let createdAt := page.created_time.getD now
  let updatedAt := page.last_edited_time.getD createdAt
  { id := "notion-" ++ page.id
    source := "notion"
    sourceId := page.id
    title := title
    description := description
    status := status
    priority := priority
    dueDate := dueDate
    createdAt := createdAt
    updatedAt := updatedAt
    labels := labels
    projectName := projectName }

/-- A Todoist `due` value; the code reads only the optional `date` field. -/
structure DueValue where
  date : Option String := none
  deriving DecidableEq, Repr

/-- A raw Todoist item as the normalizer consumes it
(src/api/unified.ts, `todoistItemToTask`: every field it reads is cast
from `unknown`, so every field may be missing). -/
structure TodoistItem where
  id : Option String := none
  content : Option String := none
  description : Option String := none
  priority : Option Int := none
  isCompleted : Option Bool := none
  due : Option DueValue := none
  labels : Option (List String) := none
  projectName : Option String := none
  createdAt : Option String := none
  deriving DecidableEq, Repr

/-- Embeds `mapTodoistPriority` (src/api/unified.ts lines 113-124): the numeric
scale 4/3/2 maps to urgent/high/medium and every other value (including a
missing one) to low. -/
def mapTodoistPriority (p : Option Int) : TaskPriority :=
  match p with
  | some 4 => TaskPriority.urgent
  | some 3 => TaskPriority.high
  | some 2 => TaskPriority.medium
  | _ => TaskPriority.low

/-- Embeds `todoistItemToTask` (src/api/unified.ts lines 130-170).  `now` stands
for `new Date().toISOString()`.  Note `title` uses `??` (nullish), so an
empty-string `content` is kept, while `description` uses `||` (truthiness),
so an empty string becomes absent. -/
def todoistItemToTask (now : String) (item : TodoistItem) : UnifiedTask :=
  let id := item.id.getD ""
  let title := item.content.getD "Untitled"
  let description :=
    match item.description with
    | none => none
    | some s => if s = "" then none else some s
  let priority := mapTodoistPriority item.priority
  let isCompleted := item.isCompleted.getD false
  let status := if isCompleted then TaskStatus.done else TaskStatus.todo
  let dueDate := item.due.bind DueValue.date
  let labels :=
    match item.labels with
    | some ls => if ls.length > 0 then some ls else none
    | none => none
  let projectName := item.projectName
  let createdAt := item.createdAt.getD now
  let updatedAt := createdAt
  { id := "todoist-" ++ id
    source := "todoist"
    sourceId := id
    title := title
    description := description
    status := status
    priority := priority
    dueDate := dueDate
    createdAt := createdAt
    updatedAt := updatedAt
    labels := labels
    projectName := projectName }

/-- An error thrown by a provider SDK call; the retry helpers read only the
optional numeric `status` (Notion, src/api/notion.ts line 44) and
`httpStatusCode` (Todoist, src/api/todoist.ts lines 37-39) fields. -/
structure ProviderError where
  httpStatusCode : Option Int := none
  status : Option Int := none
  deriving DecidableEq, Repr

/-- Status extraction in the Notion retry helper: `(err).status`. -/
def notionStatusOf (e : ProviderError) : Option Int :=
  e.status

/-- Status extraction in the Todoist retry helper:
`(err).httpStatusCode ?? (err).status`. -/
def todoistStatusOf (e : ProviderError) : Option Int :=
  match e.httpStatusCode with
  | some c => some c
  | none => e.status

/-- The shared retry condition of both `withRetry` helpers: a 429
rate-limit status or a server-error status of at least 500; a missing
status is never retryable. -/
def isRetryableStatus (s : Option Int) : Bool :=
  match s with
  | some v => v == 429 || 500 ≤ v
  | none => false

/-- Whether an attempt outcome is a failure the retry loop would retry. -/
def retryableFailure (statusOf : ProviderError → Option Int)
    (r : Except ProviderError α) : Bool :=
  match r with
  | Except.error e => isRetryableStatus (statusOf e)
  | Except.ok _ => false

/-- The retry loop body shared by both providers' `withRetry`
(src/api/notion.ts lines 37-60, src/api/todoist.ts lines 29-55), one JS
loop iteration per step.  `f i` is the outcome of attempt `i` (0-based, as
in the JS loop variable); `fuel` counts the retries still allowed, so
`fuel = MAX_RETRIES - attempt` and `fuel = 0` exactly when the JS guard
`attempt < MAX_RETRIES` is false.  The returned list holds the backoff
delays `BASE_DELAY_MS * 2 ^ attempt` actually slept, in order. -/
def withRetryGo (statusOf : ProviderError → Option Int) (baseDelay : Nat)
    (f : Nat → Except ProviderError α) : Nat → Nat → Except ProviderError α × List Nat
  | attempt, 0 => (f attempt, [])
  | attempt, fuel + 1 =>
    match f attempt with
    | Except.ok v => (Except.ok v, [])
    | Except.error e =>
      if isRetryableStatus (statusOf e) then
        let rest := withRetryGo statusOf baseDelay f (attempt + 1) fuel
        (rest.1, baseDelay * 2 ^ attempt :: rest.2)
      else (Except.error e, [])

/-- Embeds `withRetry` with provider-specific parameters: start at attempt 0
with `maxRetries` retries left.  (When `fuel = 0` and the attempt
succeeds, `f attempt` is returned unchanged, matching the JS `return await
fn()`; when it fails, the error is thrown since `attempt < MAX_RETRIES`
fails — the trailing `throw lastError` after the loop is unreachable.) -/
def withRetry (statusOf : ProviderError → Option Int) (baseDelay maxRetries : Nat)
    (f : Nat → Except ProviderError α) : Except ProviderError α × List Nat :=
  withRetryGo statusOf baseDelay f 0 maxRetries

/-- Notion retry parameters (src/api/notion.ts lines 34-35). -/
def notionMaxRetries : Nat := 5

/-- Notion base backoff delay in milliseconds. -/
def notionBaseDelayMs : Nat := 400

/-- Todoist retry parameters (src/api/todoist.ts lines 26-27). -/
def todoistMaxRetries : Nat := 5

/-- Todoist base backoff delay in milliseconds. -/
def todoistBaseDelayMs : Nat := 500

/-- The Notion `withRetry` (src/api/notion.ts lines 37-60). -/
def notionWithRetry (f : Nat → Except ProviderError α) :
    Except ProviderError α × List Nat :=
  withRetry notionStatusOf notionBaseDelayMs notionMaxRetries f

/-- The Todoist `withRetry` (src/api/todoist.ts lines 29-55). -/
def todoistWithRetry (f : Nat → Except ProviderError α) :
    Except ProviderError α × List Nat :=
  withRetry todoistStatusOf todoistBaseDelayMs todoistMaxRetries f

/-- Embeds `CreateTaskInput` (src/types/task.ts lines 20-21): `title` and `source`
required, everything else optional. -/
structure CreateTaskInput where
  title : String
  source : String
  description : Option String := none
  status : Option TaskStatus := none
  priority : Option TaskPriority := none
  dueDate : Option String := none
  labels : Option (List String) := none
  projectName : Option String := none
  deriving DecidableEq, Repr

/-- Embeds `UpdateTaskInput` (src/types/task.ts line 23): every field optional. -/
structure UpdateTaskInput where
  title : Option String := none
  description : Option String := none
  status : Option TaskStatus := none
  priority : Option TaskPriority := none
  dueDate : Option String := none
  labels : Option (List String) := none
  deriving DecidableEq, Repr

/-- Embeds `unifiedStatusToNotion` (src/api/notion.ts lines 66-76). -/
def unifiedStatusToNotion (status : TaskStatus) : String :=
  match status with
  | TaskStatus.done => "Done"
  | TaskStatus.in_progress => "In Progress"
  | TaskStatus.todo => "To Do"

/-- Embeds `unifiedPriorityToNotion` (src/api/notion.ts lines 78-90). -/
def unifiedPriorityToNotion (priority : TaskPriority) : String :=
  match priority with
  | TaskPriority.urgent => "Urgent"
  | TaskPriority.high => "High"
  | TaskPriority.low => "Low"
  | TaskPriority.medium => "Medium"

/-- Embeds `unifiedPriorityToTodoist` (src/api/todoist.ts lines 62-74). -/
def unifiedPriorityToTodoist (priority : TaskPriority) : Int :=
  match priority with
  | TaskPriority.urgent => 4
  | TaskPriority.high => 3
  | TaskPriority.medium => 2
  | TaskPriority.low => 1

/-- One Notion write-payload property value, one constructor per payload
shape built in src/api/notion.ts (`{title: [{text: {content}}]}`,
`{status: {name}}`, `{select: {name}}`, `{rich_text: [{text: {content}}]}`,
`{date: {start} | null}`, `{multi_select: [{name}]}`). -/
inductive NotionPropPayload where
  | titleContent (content : String)
  | statusName (name : String)
  | selectName (name : String)
  | richTextContent (content : String)
  | dateStart (start : Option String)
  | multiSelectNames (names : List String)
  deriving DecidableEq, Repr

/-- The `properties` object built by `updateNotionTask`
(src/api/notion.ts lines 207-243), in the order the code adds keys.  A
set `dueDate` that is the empty string is falsy, so the `Due` value is
`null` (`dateStart none`). -/
def buildNotionUpdateProperties (updates : UpdateTaskInput) :
    List (String × NotionPropPayload) :=
  (match updates.title with
   | some t => [("Name", NotionPropPayload.titleContent t)]
   | none => []) ++
  (match updates.status with
   | some s => [("Status", NotionPropPayload.statusName (unifiedStatusToNotion s))]
   | none => []) ++
  (match updates.priority with
   | some p => [("Priority", NotionPropPayload.selectName (unifiedPriorityToNotion p))]
   | none => []) ++
  (match updates.description with
   | some d => [("Description", NotionPropPayload.richTextContent d)]
   | none => []) ++
  (match updates.dueDate with
   | some d => [("Due", NotionPropPayload.dateStart (if d = "" then none else some d))]
   | none => []) ++
  (match updates.labels with
   | some ls => [("Tags", NotionPropPayload.multiSelectNames ls)]
   | none => [])

/-- A provider call issued by the Notion connector's update path. -/
inductive NotionCall where
  | update (pageId : String) (properties : List (String × NotionPropPayload))
  deriving DecidableEq, Repr

/-- The provider calls issued by `updateNotionTask`
(src/api/notion.ts lines 201-253): exactly one `pages.update` call with
the built properties, and nothing else, for every input. -/
def updateNotionTaskCalls (sourceId : String) (updates : UpdateTaskInput) :
    List NotionCall :=
  [NotionCall.update sourceId (buildNotionUpdateProperties updates)]

/-- The update params built by `updateTodoistTask`
(src/api/todoist.ts lines 134-155).  `dueString` is
`updates.dueDate || undefined`, so an empty string is dropped. -/
structure TodoistUpdateParams where
  content : Option String := none
  description : Option String := none
  priority : Option Int := none
  dueString : Option String := none
  labels : Option (List String) := none
  deriving DecidableEq, Repr

/-- Builds `updateParams` field by field as the code does; note that
`status` is never written into the params. -/
def buildTodoistUpdateParams (updates : UpdateTaskInput) : TodoistUpdateParams :=
  { content := updates.title
    description := updates.description
    priority := updates.priority.map unifiedPriorityToTodoist
    dueString :=
      match updates.dueDate with
      | some d => if d = "" then none else some d
      | none => none
    labels := updates.labels }

/-- The add params built by `createTodoistTask`
(src/api/todoist.ts lines 100-118).  The optional fields are added under
truthiness tests, so an empty-string `description`/`dueDate` and an empty
`labels` array are dropped. -/
structure TodoistAddParams where
  content : String
  description : Option String := none
  priority : Option Int := none
  dueString : Option String := none
  labels : Option (List String) := none
  deriving DecidableEq, Repr

/-- Builds `addParams` field by field as the code does; `status` and
`projectName` are never read. -/
def buildTodoistAddParams (input : CreateTaskInput) : TodoistAddParams :=
  { content := input.title
    description :=
      match input.description with
      | some d => if d = "" then none else some d
      | none => none
    priority := input.priority.map unifiedPriorityToTodoist
    dueString :=
      match input.dueDate with
      | some d => if d = "" then none else some d
      | none => none
    labels :=
      match input.labels with
      | some ls => if ls.length > 0 then some ls else none
      | none => none }

/-- A provider call issued by the Todoist connector. -/
inductive TodoistCall where
  | add (params : TodoistAddParams)
  | update (sourceId : String) (params : TodoistUpdateParams)
  | closeTask (sourceId : String)
  | reopenTask (sourceId : String)
  deriving DecidableEq, Repr

/-- The provider calls issued by `updateTodoistTask`
(src/api/todoist.ts lines 128-169), in order: the field-update call, then
a `closeTask` call exactly when the requested status is `done`, then a
`reopenTask` call exactly when the requested status is `todo` or
`in_progress`. -/
def updateTodoistTaskCalls (sourceId : String) (updates : UpdateTaskInput) :
    List TodoistCall :=
  [TodoistCall.update sourceId (buildTodoistUpdateParams updates)] ++
  (if updates.status = some TaskStatus.done then [TodoistCall.closeTask sourceId]
   else []) ++
  (if updates.status = some TaskStatus.todo ∨ updates.status = some TaskStatus.in_progress
   then [TodoistCall.reopenTask sourceId]
   else [])

/-- The provider calls issued by `createTodoistTask`
(src/api/todoist.ts lines 97-123): one `addTask` call. -/
def createTodoistTaskCalls (input : CreateTaskInput) : List TodoistCall :=
  [TodoistCall.add (buildTodoistAddParams input)]

/-- The task returned by `createTodoistTask`: the provider's response to
the add call, normalized — the requested fields play no further part. -/
def createTodoistTaskResult (now : String) (response : TodoistItem) : UnifiedTask :=
  todoistItemToTask now response

/-- Embeds `CACHE_TTL_MS` (src/api/taskService.ts line 9). -/
def CACHE_TTL_MS : Int := 30000

/-- The cache snapshot (src/api/taskService.ts, `TaskCache`): the merged
task list plus its capture timestamp (`Date.now()` milliseconds). -/
structure TaskCache where
  tasks : List UnifiedTask
  timestamp : Int
  deriving DecidableEq, Repr

/-- Embeds `isCacheValid` (src/api/taskService.ts lines 18-20): a snapshot exists
and its age is strictly under the TTL.  `now` stands for `Date.now()`. -/
def isCacheValid (cache : Option TaskCache) (now : Int) : Bool :=
  match cache with
  | none => false
  | some c => now - c.timestamp < CACHE_TTL_MS

/-- The comparator of the `tasks.sort` call in `getAllTasks`
(src/api/taskService.ts lines 63-67) as a boolean `le` for a stable merge
sort: `a` may precede `b` exactly when `a`'s parsed `updatedAt` is at
least `b`'s.  `parse` stands for `s => new Date(s).getTime()`. -/
def updatedDescLe (parse : String → Int) (a b : UnifiedTask) : Bool :=
  parse b.updatedAt ≤ parse a.updatedAt

/-- The merge-and-sort step of `getAllTasks` on a cache miss: fulfilled
results contribute their records in connector order, rejected ones
contribute nothing, and the accumulated list is sorted by `updatedAt`
descending (stably, as `Array.prototype.sort` is). -/
def mergeSettledResults (parse : String → Int)
    (notionResult todoistResult : Except ProviderError (List UnifiedTask)) :
    List UnifiedTask :=
  let tasks :=
    (match notionResult with
     | Except.ok ts => ts
     | Except.error _ => []) ++
    (match todoistResult with
     | Except.ok ts => ts
     | Except.error _ => [])
  tasks.mergeSort (updatedDescLe parse)

/-- Embeds `getAllTasks` (src/api/taskService.ts lines 44-72).  The two `Except`
arguments are the settled outcomes of `fetchNotionTasks()` and
`fetchTodoistTasks()` (`Promise.allSettled` never rejects, and the loop
converts a rejection into zero records plus a logged diagnostic, so the
function itself never throws).  Returns the task list handed to the
caller, the cache slot after the call, and the names of the connectors
whose `fetchAll` was actually invoked. -/
def getAllTasks (parse : String → Int) (cache : Option TaskCache) (now : Int)
    (notionResult todoistResult : Except ProviderError (List UnifiedTask)) :
    List UnifiedTask × Option TaskCache × List String :=
  if isCacheValid cache now then
    ((cache.map TaskCache.tasks).getD [], cache, [])
  else
    let tasks := mergeSettledResults parse notionResult todoistResult
    (tasks, some { tasks := tasks, timestamp := now }, ["notion", "todoist"])

/-- An error surfaced by the aggregation service: either a propagated
provider error or the `Unsupported task source` error thrown by the
routing `switch` defaults. -/
inductive ServiceError where
  | provider (e : ProviderError)
  | unsupportedSource (origin : String)
  deriving DecidableEq, Repr

/-- Embeds `createTask` (src/api/taskService.ts lines 82-101).  The `Except`
arguments are the outcomes the routed connector's `create` would produce;
the `Nat` counts connector calls issued.  `refreshTasks()` (cache set to
`none`) runs only after a successful connector call, since a thrown error
propagates first. -/
def createTask (cache : Option TaskCache) (origin : String)
    (notionResult todoistResult : Except ProviderError UnifiedTask) :
    Except ServiceError UnifiedTask × Option TaskCache × Nat :=
  if origin = "notion" then
    match notionResult with
    | Except.ok t => (Except.ok t, none, 1)
    | Except.error e => (Except.error (ServiceError.provider e), cache, 1)
  else if origin = "todoist" then
    match todoistResult with
    | Except.ok t => (Except.ok t, none, 1)
    | Except.error e => (Except.error (ServiceError.provider e), cache, 1)
  else
    (Except.error (ServiceError.unsupportedSource origin), cache, 0)

/-- Embeds `updateTask` (src/api/taskService.ts lines 111-130): routes on
`task.source` the same way `createTask` routes on its `source` argument. -/
def updateTask (cache : Option TaskCache) (task : UnifiedTask)
    (notionResult todoistResult : Except ProviderError UnifiedTask) :
    Except ServiceError UnifiedTask × Option TaskCache × Nat :=
  if task.source = "notion" then
    match notionResult with
    | Except.ok t => (Except.ok t, none, 1)
    | Except.error e => (Except.error (ServiceError.provider e), cache, 1)
  else if task.source = "todoist" then
    match todoistResult with
    | Except.ok t => (Except.ok t, none, 1)
    | Except.error e => (Except.error (ServiceError.provider e), cache, 1)
  else
    (Except.error (ServiceError.unsupportedSource task.source), cache, 0)

/-- Embeds `deleteTask` (src/api/taskService.ts lines 140-153). -/
def deleteTask (cache : Option TaskCache) (task : UnifiedTask)
    (notionResult todoistResult : Except ProviderError Unit) :
    Except ServiceError Unit × Option TaskCache × Nat :=
  if task.source = "notion" then
    match notionResult with
    | Except.ok _ => (Except.ok (), none, 1)
    | Except.error e => (Except.error (ServiceError.provider e), cache, 1)
  else if task.source = "todoist" then
    match todoistResult with
    | Except.ok _ => (Except.ok (), none, 1)
    | Except.error e => (Except.error (ServiceError.provider e), cache, 1)
  else
    (Except.error (ServiceError.unsupportedSource task.source), cache, 0)

/-- The backoff delays slept by a run of the retry loop that enters the
sleep branch `k` times starting from attempt number `attempt`. -/
def backoffDelays (baseDelay : Nat) : Nat → Nat → List Nat
  | _, 0 => []
  | attempt, k + 1 => baseDelay * 2 ^ attempt :: backoffDelays baseDelay (attempt + 1) k

end MyTodoo

namespace MyTodoo

theorem backoffDelays_eq_map (b : Nat) :
    ∀ (k a : Nat), backoffDelays b a k = (List.range k).map (fun i => b * 2 ^ (a + i)) := by
  intro k
  induction k with
  | zero => intro a; simp [backoffDelays]
  | succ k ih =>
    intro a
    rw [backoffDelays, ih (a + 1), List.range_succ_eq_map]
    simp only [List.map_cons, List.map_map, Nat.add_zero]
    congr 1
    apply List.map_congr_left
    intro i _
    simp only [Function.comp]
    have h2 : a + 1 + i = a + i.succ := by omega
    rw [h2]

theorem withRetryGo_ok_after_failures (statusOf : ProviderError → Option Int)
    (baseDelay : Nat) {α : Type} (f : Nat → Except ProviderError α) (v : α) :
    ∀ (k attempt fuel : Nat), k ≤ fuel →
    (∀ i, i < k → retryableFailure statusOf (f (attempt + i)) = true) →
    f (attempt + k) = Except.ok v →
    withRetryGo statusOf baseDelay f attempt fuel =
      (Except.ok v, backoffDelays baseDelay attempt k) := by
  intro k
  induction k with
  | zero =>
    intro attempt fuel _ _ hok
    rw [Nat.add_zero] at hok
    cases fuel with
    | zero => simp [withRetryGo, hok, backoffDelays]
    | succ n => rw [withRetryGo, hok]; simp [backoffDelays]
  | succ k ih =>
    intro attempt fuel hk hfail hok
    obtain ⟨fuel', rfl⟩ : ∃ m, fuel = m + 1 := ⟨fuel - 1, by omega⟩
    have h0 : retryableFailure statusOf (f attempt) = true := by
      simpa using hfail 0 (by omega)
    cases hf : f attempt with
    | ok w => rw [hf] at h0; simp [retryableFailure] at h0
    | error e =>
      rw [hf] at h0
      simp only [retryableFailure] at h0
      rw [withRetryGo, hf]
      simp only [h0, if_true]
      rw [ih (attempt + 1) fuel' (by omega)
        (fun i hi => by
          have := hfail (i + 1) (by omega)
          have harith : attempt + (i + 1) = attempt + 1 + i := by omega
          rwa [harith] at this)
        (by
          have harith : attempt + 1 + k = attempt + (k + 1) := by omega
          rw [harith]; exact hok)]
      simp [backoffDelays]

theorem withRetryGo_exhaust (statusOf : ProviderError → Option Int)
    (baseDelay : Nat) {α : Type} (f : Nat → Except ProviderError α) :
    ∀ (fuel attempt : Nat),
    (∀ i, i ≤ fuel → retryableFailure statusOf (f (attempt + i)) = true) →
    withRetryGo statusOf baseDelay f attempt fuel =
      (f (attempt + fuel), backoffDelays baseDelay attempt fuel) := by
  intro fuel
  induction fuel with
  | zero => intro attempt _; simp [withRetryGo, backoffDelays]
  | succ fuel ih =>
    intro attempt hfail
    have h0 : retryableFailure statusOf (f attempt) = true := by
      simpa using hfail 0 (by omega)
    cases hf : f attempt with
    | ok w => rw [hf] at h0; simp [retryableFailure] at h0
    | error e =>
      rw [hf] at h0
      simp only [retryableFailure] at h0
      rw [withRetryGo, hf]
      simp only [h0, if_true]
      rw [ih (attempt + 1)
        (fun i hi => by
          have := hfail (i + 1) (by omega)
          have harith : attempt + (i + 1) = attempt + 1 + i := by omega
          rwa [harith] at this)]
      have harith : attempt + 1 + fuel = attempt + (fuel + 1) := by omega
      rw [harith]
      simp [backoffDelays]

theorem withRetryGo_nonretryable (statusOf : ProviderError → Option Int)
    (baseDelay : Nat) {α : Type} (f : Nat → Except ProviderError α)
    (fuel attempt : Nat) (e : ProviderError)
    (hf : f attempt = Except.error e)
    (hr : isRetryableStatus (statusOf e) = false) :
    withRetryGo statusOf baseDelay f attempt fuel = (Except.error e, []) := by
  cases fuel with
  | zero => simp [withRetryGo, hf]
  | succ n => rw [withRetryGo, hf]; simp [hr]

/-- C8: for every canonical status `s`, `mapNotionStatus` applied to
`unifiedStatusToNotion s` gives back `s`, and for every canonical priority
`p`, `mapNotionPriority` inverts `unifiedPriorityToNotion` and
`mapTodoistPriority` inverts `unifiedPriorityToTodoist`, so the
status/priority fields written by `fromCanonical` read back unchanged. -/
theorem status_priority_roundtrip :
    (∀ s : TaskStatus, mapNotionStatus (some (unifiedStatusToNotion s)) = s) ∧
    (∀ p : TaskPriority, mapNotionPriority (some (unifiedPriorityToNotion p)) = p) ∧
    (∀ p : TaskPriority, mapTodoistPriority (some (unifiedPriorityToTodoist p)) = p) := by
  refine ⟨?_, ?_, ?_⟩
  · intro s; cases s <;> decide
  · intro p; cases p <;> decide
  · intro p; cases p <;> decide

/-- C6: an update whose requested status is `done` makes the Todoist
connector issue exactly one extra close call after the field-update call;
a requested status of `todo` or `in_progress` makes it issue exactly one
extra reopen call after the field-update call; the Notion connector issues
exactly the single field-update call on every update, never a close or
reopen. -/
theorem status_transition_side_effects :
    (∀ (sid : String) (u : UpdateTaskInput), u.status = some TaskStatus.done →
      updateTodoistTaskCalls sid u =
        [TodoistCall.update sid (buildTodoistUpdateParams u), TodoistCall.closeTask sid]) ∧
    (∀ (sid : String) (u : UpdateTaskInput),
      u.status = some TaskStatus.todo ∨ u.status = some TaskStatus.in_progress →
      updateTodoistTaskCalls sid u =
        [TodoistCall.update sid (buildTodoistUpdateParams u), TodoistCall.reopenTask sid]) ∧
    (∀ (sid : String) (u : UpdateTaskInput),
      updateNotionTaskCalls sid u = [NotionCall.update sid (buildNotionUpdateProperties u)]) := by
  refine ⟨?_, ?_, ?_⟩
  · intro sid u h
    simp [updateTodoistTaskCalls, h]
  · intro sid u h
    rcases h with h | h <;> simp [updateTodoistTaskCalls, h]
  · intro sid u
    rfl

/-- Witness for C6 at a concrete update request. -/
theorem status_transition_side_effects_witness :
    updateTodoistTaskCalls "t1" { status := some TaskStatus.done } =
      [TodoistCall.update "t1" (buildTodoistUpdateParams { status := some TaskStatus.done }),
       TodoistCall.closeTask "t1"] :=
  status_transition_side_effects.1 "t1" { status := some TaskStatus.done } rfl

/-- C4 counterexample: a Todoist item whose `content` is present but empty
keeps the empty string as its title — the title is empty and the
`Untitled` fallback is not applied, because the code uses the nullish
operator `??`, which only fires on a missing value. -/
theorem todoist_empty_content_title_cex :
    (todoistItemToTask "2024-01-01T00:00:00.000Z"
        { content := some "" }).title = "" := by
  rfl

/-- C4 amended: the Notion title is always non-empty — it is the
separator-free, order-preserving concatenation of the rich-text fragments'
plain text when that is non-empty and the literal `Untitled` otherwise —
but the Todoist title falls back to `Untitled` only when `content` is
missing; a present value (the empty string included) is kept verbatim. -/
theorem title_extraction_amended :
    (∀ (now : String) (page : NotionPage), (notionPageToTask now page).title ≠ "") ∧
    (∀ (now : String) (page : NotionPage),
      (notionPageToTask now page).title =
        if richTextToPlain (notionTitleProp page).title = "" then "Untitled"
        else richTextToPlain (notionTitleProp page).title) ∧
    (∀ frags : List RichTextItem,
      richTextToPlain (some frags) =
        String.join (frags.map (fun rt => rt.plain_text.getD ""))) ∧
    (∀ (now : String) (item : TodoistItem), item.content = none →
      (todoistItemToTask now item).title = "Untitled") ∧
    (∀ (now : String) (item : TodoistItem) (s : String), item.content = some s →
      (todoistItemToTask now item).title = s) := by
  refine ⟨?_, ?_, ?_, ?_, ?_⟩
  · intro now page
    show (if richTextToPlain (notionTitleProp page).title = "" then "Untitled"
          else richTextToPlain (notionTitleProp page).title) ≠ ""
    split
    · decide
    · next h => exact h
  · intro now page
    rfl
  · intro frags
    rfl
  · intro now item h
    simp [todoistItemToTask, h]
  · intro now item s h
    simp [todoistItemToTask, h]

/-- Witness for the amended C4: a Todoist item with no `content` field is
titled `Untitled`. -/
theorem title_extraction_amended_witness :
    (todoistItemToTask "2024-01-01T00:00:00.000Z" {}).title = "Untitled" :=
  title_extraction_amended.2.2.2.1 "2024-01-01T00:00:00.000Z" {} rfl

/-- C5 counterexample: a Notion page whose `Tags` property carries an
empty `multi_select` array normalizes to `labels = some []` — an empty
sequence, not an absent one (the Notion normalizer, unlike the Todoist
one, has no emptiness check). -/
theorem notion_empty_multiselect_labels_cex :
    (notionPageToTask "2024-01-01T00:00:00.000Z"
        { id := "p1",
          properties := some [("Tags", { multi_select := some [] })],
          created_time := some "2024-06-01T00:00:00.000Z",
          last_edited_time := some "2024-06-02T00:00:00.000Z" }).labels = some [] := by
  rfl

/-- C5 amended: the Todoist normalizer keeps the absent-vs-empty
distinction (its labels are never the empty sequence; an absent or empty
source collection yields absent), but the Notion normalizer maps the
source `multi_select` array through unchanged, so an empty source array
yields the empty sequence rather than absent (only a missing array yields
absent). -/
theorem labels_absent_or_nonempty_amended :
    (∀ (now : String) (item : TodoistItem), (todoistItemToTask now item).labels ≠ some []) ∧
    (∀ (now : String) (item : TodoistItem), item.labels = none →
      (todoistItemToTask now item).labels = none) ∧
    (∀ (now : String) (item : TodoistItem) (ls : List String), item.labels = some ls →
      ls.length = 0 → (todoistItemToTask now item).labels = none) ∧
    (∀ (now : String) (page : NotionPage),
      (lookupPropChain page.properties ["Tags", "Labels", "tags"]).multi_select = none →
      (notionPageToTask now page).labels = none) ∧
    (∀ (now : String) (page : NotionPage) (xs : List MultiSelectItem),
      (lookupPropChain page.properties ["Tags", "Labels", "tags"]).multi_select = some xs →
      (notionPageToTask now page).labels = some (xs.map MultiSelectItem.name)) := by
  refine ⟨?_, ?_, ?_, ?_, ?_⟩
  · intro now item
    show (match item.labels with
          | some ls => if ls.length > 0 then some ls else none
          | none => none) ≠ some []
    cases h : item.labels with
    | none => simp
    | some ls =>
      split
      · next hl => simp_all [Nat.pos_iff_ne_zero, List.length_eq_zero]
      · simp
  · intro now item h
    simp [todoistItemToTask, h]
  · intro now item ls h hlen
    simp [todoistItemToTask, h, hlen]
  · intro now page h
    simp [notionPageToTask, h]
  · intro now page xs h
    simp [notionPageToTask, h]

/-- Witness for the amended C5: an explicitly empty Todoist labels array
normalizes to absent labels. -/
theorem labels_absent_or_nonempty_amended_witness :
    (todoistItemToTask "2024-01-01T00:00:00.000Z" { labels := some [] }).labels = none :=
  labels_absent_or_nonempty_amended.2.2.1 "2024-01-01T00:00:00.000Z"
    { labels := some [] } [] rfl rfl

/-- C7 counterexample: normalizing the same raw Notion record (one with no
`created_time`) at two different call instants yields different Canonical
Tasks, because the missing timestamp defaults to the current clock
reading. -/
theorem normalization_clock_cex :
    notionPageToTask "2024-01-01T00:00:00.000Z" { id := "p" } ≠
      notionPageToTask "2024-01-02T00:00:00.000Z" { id := "p" } := by
  decide

/-- C7 amended: normalization is deterministic given the clock reading —
for raw records that carry a created timestamp the result is independent
of the call instant entirely, and for records that lack one, two
normalizations can differ only in the defaulted `createdAt`/`updatedAt`
fields. -/
theorem normalization_deterministic_amended :
    (∀ (now1 now2 : String) (page : NotionPage), page.created_time.isSome = true →
      notionPageToTask now1 page = notionPageToTask now2 page) ∧
    (∀ (now1 now2 : String) (item : TodoistItem), item.createdAt.isSome = true →
      todoistItemToTask now1 item = todoistItemToTask now2 item) ∧
    (∀ (now1 now2 : String) (page : NotionPage),
      { notionPageToTask now1 page with createdAt := "", updatedAt := "" } =
        { notionPageToTask now2 page with createdAt := "", updatedAt := "" }) ∧
    (∀ (now1 now2 : String) (item : TodoistItem),
      { todoistItemToTask now1 item with createdAt := "", updatedAt := "" } =
        { todoistItemToTask now2 item with createdAt := "", updatedAt := "" }) := by
  refine ⟨?_, ?_, ?_, ?_⟩
  · intro now1 now2 page h
    obtain ⟨c, hc⟩ := Option.isSome_iff_exists.mp h
    simp [notionPageToTask, hc]
  · intro now1 now2 item h
    obtain ⟨c, hc⟩ := Option.isSome_iff_exists.mp h
    simp [todoistItemToTask, hc]
  · intro now1 now2 page
    simp [notionPageToTask]
  · intro now1 now2 item
    simp [todoistItemToTask]

/-- Witness for the amended C7: a page carrying `created_time` normalizes
identically at two different instants. -/
theorem normalization_deterministic_amended_witness :
    notionPageToTask "2024-01-01T00:00:00.000Z"
        { id := "p", created_time := some "2024-06-01T00:00:00.000Z" } =
      notionPageToTask "2024-01-02T00:00:00.000Z"
        { id := "p", created_time := some "2024-06-01T00:00:00.000Z" } :=
  normalization_deterministic_amended.1 "2024-01-01T00:00:00.000Z"
    "2024-01-02T00:00:00.000Z"
    { id := "p", created_time := some "2024-06-01T00:00:00.000Z" } rfl

/-- C10: the Todoist create path reads neither `status` nor `projectName`:
two create inputs equal on every other field produce the identical add
payload, and the canonical status of the returned task is computed from
the provider's response alone (`done` exactly when the response says it is
completed, otherwise `todo`), never from the requested status. -/
theorem todoist_create_ignores_status_and_project :
    (∀ i1 i2 : CreateTaskInput, i1.title = i2.title → i1.source = i2.source →
      i1.description = i2.description → i1.priority = i2.priority →
      i1.dueDate = i2.dueDate → i1.labels = i2.labels →
      buildTodoistAddParams i1 = buildTodoistAddParams i2) ∧
    (∀ (now : String) (response : TodoistItem),
      (createTodoistTaskResult now response).status =
        if response.isCompleted.getD false then TaskStatus.done else TaskStatus.todo) := by
  constructor
  · intro i1 i2 ht _ hd hp hdd hl
    simp [buildTodoistAddParams, ht, hd, hp, hdd, hl]
  · intro now response
    rfl

/-- Witness for C10: two inputs differing exactly in `status` and
`projectName` build the same add payload. -/
theorem todoist_create_ignores_status_and_project_witness :
    buildTodoistAddParams
        { title := "a", source := "todoist", status := some TaskStatus.done,
          projectName := some "P" } =
      buildTodoistAddParams
        { title := "a", source := "todoist", status := some TaskStatus.in_progress,
          projectName := none } :=
  todoist_create_ignores_status_and_project.1 _ _ rfl rfl rfl rfl rfl rfl

theorem mergeSort_updatedDesc_perm (parse : String → Int) (l : List UnifiedTask) :
    (l.mergeSort (updatedDescLe parse)).Perm l :=
  List.mergeSort_perm l _

theorem mergeSort_updatedDesc_sorted (parse : String → Int) (l : List UnifiedTask) :
    List.Pairwise (fun a b => parse b.updatedAt ≤ parse a.updatedAt)
      (l.mergeSort (updatedDescLe parse)) := by
  have h := @List.sorted_mergeSort UnifiedTask (updatedDescLe parse)
    (fun a b c hab hbc => by
      simp only [updatedDescLe, decide_eq_true_eq] at hab hbc ⊢
      omega)
    (fun a b => by
      simp only [updatedDescLe, Bool.or_eq_true, decide_eq_true_eq]
      omega)
    l
  exact h.imp (fun hab => by simpa [updatedDescLe] using hab)

/-- C1: on a cache miss `getAllTasks` never fails, whatever the connector
outcomes — when one connector's fetch fails and the other returns records,
the returned aggregate is exactly those records (a permutation of them)
sorted by parsed `updatedAt` descending, and when both connectors fail the
returned aggregate is the empty sequence. -/
theorem getAllTasks_partial_failure_tolerant
    (parse : String → Int) (cache : Option TaskCache) (now : Int)
    (hmiss : isCacheValid cache now = false) :
    (∀ (e : ProviderError) (recs : List UnifiedTask),
      ((getAllTasks parse cache now (Except.error e) (Except.ok recs)).1).Perm recs ∧
      List.Pairwise (fun a b => parse b.updatedAt ≤ parse a.updatedAt)
        (getAllTasks parse cache now (Except.error e) (Except.ok recs)).1) ∧
    (∀ (e : ProviderError) (recs : List UnifiedTask),
      ((getAllTasks parse cache now (Except.ok recs) (Except.error e)).1).Perm recs ∧
      List.Pairwise (fun a b => parse b.updatedAt ≤ parse a.updatedAt)
        (getAllTasks parse cache now (Except.ok recs) (Except.error e)).1) ∧
    (∀ (e1 e2 : ProviderError),
      (getAllTasks parse cache now (Except.error e1) (Except.error e2)).1 = []) := by
  refine ⟨?_, ?_, ?_⟩
  · intro e recs
    constructor
    · simpa [getAllTasks, hmiss, mergeSettledResults] using
        mergeSort_updatedDesc_perm parse recs
    · simpa [getAllTasks, hmiss, mergeSettledResults] using
        mergeSort_updatedDesc_sorted parse recs
  · intro e recs
    constructor
    · simpa [getAllTasks, hmiss, mergeSettledResults] using
        mergeSort_updatedDesc_perm parse recs
    · simpa [getAllTasks, hmiss, mergeSettledResults] using
        mergeSort_updatedDesc_sorted parse recs
  · intro e1 e2
    simp [getAllTasks, hmiss, mergeSettledResults]

/-- Witness for C1 at a concrete state: no snapshot, both providers down,
the call still returns (the empty sequence). -/
theorem getAllTasks_partial_failure_tolerant_witness :
    isCacheValid none 0 = false ∧
    (getAllTasks (fun _ => 0) none 0 (Except.error {}) (Except.error {})).1 = [] :=
  ⟨rfl, (getAllTasks_partial_failure_tolerant (fun _ => 0) none 0 rfl).2.2 {} {}⟩

/-- C2: a `getAllTasks` call while a snapshot younger than the 30-second
TTL exists returns that snapshot unchanged and fetches from no connector;
a call once the snapshot has reached the TTL, or when no snapshot exists,
fetches from every connector; and every successful create/update/delete
clears the snapshot (so the next read refetches). -/
theorem cache_ttl_and_write_invalidation :
    (∀ (parse : String → Int) (c : TaskCache) (now : Int)
        (r1 r2 : Except ProviderError (List UnifiedTask)),
      now - c.timestamp < CACHE_TTL_MS →
      getAllTasks parse (some c) now r1 r2 = (c.tasks, some c, [])) ∧
    (∀ (parse : String → Int) (cache : Option TaskCache) (now : Int)
        (r1 r2 : Except ProviderError (List UnifiedTask)),
      isCacheValid cache now = false →
      (getAllTasks parse cache now r1 r2).2.2 = ["notion", "todoist"]) ∧
    (∀ (c : TaskCache) (now : Int), CACHE_TTL_MS ≤ now - c.timestamp →
      isCacheValid (some c) now = false) ∧
    (∀ now : Int, isCacheValid none now = false) ∧
    (∀ (cache : Option TaskCache) (t : UnifiedTask) (r2 : Except ProviderError UnifiedTask),
      (createTask cache "notion" (Except.ok t) r2).2.1 = none) ∧
    (∀ (cache : Option TaskCache) (t : UnifiedTask) (r1 : Except ProviderError UnifiedTask),
      (createTask cache "todoist" r1 (Except.ok t)).2.1 = none) ∧
    (∀ (cache : Option TaskCache) (task t : UnifiedTask)
        (r2 : Except ProviderError UnifiedTask), task.source = "notion" →
      (updateTask cache task (Except.ok t) r2).2.1 = none) ∧
    (∀ (cache : Option TaskCache) (task t : UnifiedTask)
        (r1 : Except ProviderError UnifiedTask), task.source = "todoist" →
      (updateTask cache task r1 (Except.ok t)).2.1 = none) ∧
    (∀ (cache : Option TaskCache) (task : UnifiedTask)
        (r2 : Except ProviderError Unit), task.source = "notion" →
      (deleteTask cache task (Except.ok ()) r2).2.1 = none) ∧
    (∀ (cache : Option TaskCache) (task : UnifiedTask)
        (r1 : Except ProviderError Unit), task.source = "todoist" →
      (deleteTask cache task r1 (Except.ok ())).2.1 = none) := by
  refine ⟨?_, ?_, ?_, ?_, ?_, ?_, ?_, ?_, ?_, ?_⟩
  · intro parse c now r1 r2 h
    have hv : isCacheValid (some c) now = true := by
      simp [isCacheValid, h]
    simp [getAllTasks, hv]
  · intro parse cache now r1 r2 h
    simp [getAllTasks, h]
  · intro c now h
    show decide (now - c.timestamp < CACHE_TTL_MS) = false
    rw [decide_eq_false_iff_not]
    simp only [CACHE_TTL_MS] at h ⊢
    omega
  · intro now
    rfl
  · intro cache t r2
    rfl
  · intro cache t r1
    rfl
  · intro cache task t r2 h
    simp [updateTask, h]
  · intro cache task t r1 h
    simp [updateTask, h]
  · intro cache task r2 h
    simp [deleteTask, h]
  · intro cache task r1 h
    simp [deleteTask, h]

/-- Witness for C2 at a concrete fresh snapshot: the cached (empty) task
list comes back untouched and no connector is fetched. -/
theorem cache_ttl_and_write_invalidation_witness :
    getAllTasks (fun _ => 0) (some { tasks := [], timestamp := 0 }) 10000
        (Except.error {}) (Except.error {}) =
      ([], some { tasks := [], timestamp := 0 }, []) :=
  cache_ttl_and_write_invalidation.1 (fun _ => 0) { tasks := [], timestamp := 0 }
    10000 (Except.error {}) (Except.error {}) (by decide)

/-- C9: a failed connector write propagates the provider error and leaves
the cache slot exactly as it was; a successful write (and only a
successful write) clears it; and a write routed to an unrecognized origin
fails with the unsupported-source error, touches no connector (zero
calls), and leaves the cache untouched. -/
theorem write_failure_and_routing :
    (∀ (cache : Option TaskCache) (e : ProviderError)
        (r2 : Except ProviderError UnifiedTask),
      createTask cache "notion" (Except.error e) r2 =
        (Except.error (ServiceError.provider e), cache, 1)) ∧
    (∀ (cache : Option TaskCache) (e : ProviderError)
        (r1 : Except ProviderError UnifiedTask),
      createTask cache "todoist" r1 (Except.error e) =
        (Except.error (ServiceError.provider e), cache, 1)) ∧
    (∀ (cache : Option TaskCache) (task : UnifiedTask) (e : ProviderError)
        (r2 : Except ProviderError UnifiedTask), task.source = "notion" →
      updateTask cache task (Except.error e) r2 =
        (Except.error (ServiceError.provider e), cache, 1)) ∧
    (∀ (cache : Option TaskCache) (task : UnifiedTask) (e : ProviderError)
        (r1 : Except ProviderError UnifiedTask), task.source = "todoist" →
      updateTask cache task r1 (Except.error e) =
        (Except.error (ServiceError.provider e), cache, 1)) ∧
    (∀ (cache : Option TaskCache) (task : UnifiedTask) (e : ProviderError)
        (r2 : Except ProviderError Unit), task.source = "notion" →
      deleteTask cache task (Except.error e) r2 =
        (Except.error (ServiceError.provider e), cache, 1)) ∧
    (∀ (cache : Option TaskCache) (task : UnifiedTask) (e : ProviderError)
        (r1 : Except ProviderError Unit), task.source = "todoist" →
      deleteTask cache task r1 (Except.error e) =
        (Except.error (ServiceError.provider e), cache, 1)) ∧
    (∀ (cache : Option TaskCache) (t : UnifiedTask)
        (r2 : Except ProviderError UnifiedTask),
      createTask cache "notion" (Except.ok t) r2 = (Except.ok t, none, 1)) ∧
    (∀ (cache : Option TaskCache) (t : UnifiedTask)
        (r1 : Except ProviderError UnifiedTask),
      createTask cache "todoist" r1 (Except.ok t) = (Except.ok t, none, 1)) ∧
    (∀ (cache : Option TaskCache) (task t : UnifiedTask)
        (r2 : Except ProviderError UnifiedTask), task.source = "notion" →
      updateTask cache task (Except.ok t) r2 = (Except.ok t, none, 1)) ∧
    (∀ (cache : Option TaskCache) (task t : UnifiedTask)
        (r1 : Except ProviderError UnifiedTask), task.source = "todoist" →
      updateTask cache task r1 (Except.ok t) = (Except.ok t, none, 1)) ∧
    (∀ (cache : Option TaskCache) (task : UnifiedTask)
        (r2 : Except ProviderError Unit), task.source = "notion" →
      deleteTask cache task (Except.ok ()) r2 = (Except.ok (), none, 1)) ∧
    (∀ (cache : Option TaskCache) (task : UnifiedTask)
        (r1 : Except ProviderError Unit), task.source = "todoist" →
      deleteTask cache task r1 (Except.ok ()) = (Except.ok (), none, 1)) ∧
    (∀ (cache : Option TaskCache) (origin : String)
        (r1 r2 : Except ProviderError UnifiedTask),
      origin ≠ "notion" → origin ≠ "todoist" →
      createTask cache origin r1 r2 =
        (Except.error (ServiceError.unsupportedSource origin), cache, 0)) ∧
    (∀ (cache : Option TaskCache) (task : UnifiedTask)
        (r1 r2 : Except ProviderError UnifiedTask),
      task.source ≠ "notion" → task.source ≠ "todoist" →
      updateTask cache task r1 r2 =
        (Except.error (ServiceError.unsupportedSource task.source), cache, 0)) ∧
    (∀ (cache : Option TaskCache) (task : UnifiedTask)
        (r1 r2 : Except ProviderError Unit),
      task.source ≠ "notion" → task.source ≠ "todoist" →
      deleteTask cache task r1 r2 =
        (Except.error (ServiceError.unsupportedSource task.source), cache, 0)) := by
  refine ⟨?_, ?_, ?_, ?_, ?_, ?_, ?_, ?_, ?_, ?_, ?_, ?_, ?_, ?_, ?_⟩
  · intro cache e r2; rfl
  · intro cache e r1; rfl
  · intro cache task e r2 h; simp [updateTask, h]
  · intro cache task e r1 h; simp [updateTask, h]
  · intro cache task e r2 h; simp [deleteTask, h]
  · intro cache task e r1 h; simp [deleteTask, h]
  · intro cache t r2; rfl
  · intro cache t r1; rfl
  · intro cache task t r2 h; simp [updateTask, h]
  · intro cache task t r1 h; simp [updateTask, h]
  · intro cache task r2 h; simp [deleteTask, h]
  · intro cache task r1 h; simp [deleteTask, h]
  · intro cache origin r1 r2 h1 h2; simp [createTask, h1, h2]
  · intro cache task r1 r2 h1 h2; simp [updateTask, h1, h2]
  · intro cache task r1 r2 h1 h2; simp [deleteTask, h1, h2]

/-- Witness for C9: a create naming the origin `github` fails with the
unsupported-source error, issues zero connector calls, and leaves an
existing snapshot in place. -/
theorem write_failure_and_routing_witness :
    createTask (some { tasks := [], timestamp := 0 }) "github"
        (Except.error {}) (Except.error {}) =
      (Except.error (ServiceError.unsupportedSource "github"),
        some { tasks := [], timestamp := 0 }, 0) :=
  (write_failure_and_routing.2.2.2.2.2.2.2.2.2.2.2.2.1)
    (some { tasks := [], timestamp := 0 }) "github"
    (Except.error {}) (Except.error {}) (by decide) (by decide)

/-- C3: for both providers' `withRetry`, `k ≤ 5` attempts failing with a
429 or `>= 500` status followed by a success return the success value
after backoff delays that start at the provider-specific base (400 ms for
Notion, 500 ms for Todoist) and double each attempt; six such failures
propagate the final attempt's error; and a first-attempt failure without a
retryable status propagates at once with no retry and no delay. -/
theorem withRetry_policy :
    (∀ (α : Type) (f : Nat → Except ProviderError α) (k : Nat) (v : α),
      k ≤ notionMaxRetries →
      (∀ i, i < k → retryableFailure notionStatusOf (f i) = true) →
      f k = Except.ok v →
      notionWithRetry f =
        (Except.ok v, (List.range k).map (fun i => notionBaseDelayMs * 2 ^ i))) ∧
    (∀ (α : Type) (f : Nat → Except ProviderError α) (k : Nat) (v : α),
      k ≤ todoistMaxRetries →
      (∀ i, i < k → retryableFailure todoistStatusOf (f i) = true) →
      f k = Except.ok v →
      todoistWithRetry f =
        (Except.ok v, (List.range k).map (fun i => todoistBaseDelayMs * 2 ^ i))) ∧
    (∀ (α : Type) (f : Nat → Except ProviderError α),
      (∀ i, i ≤ notionMaxRetries → retryableFailure notionStatusOf (f i) = true) →
      notionWithRetry f =
        (f notionMaxRetries,
          (List.range notionMaxRetries).map (fun i => notionBaseDelayMs * 2 ^ i))) ∧
    (∀ (α : Type) (f : Nat → Except ProviderError α),
      (∀ i, i ≤ todoistMaxRetries → retryableFailure todoistStatusOf (f i) = true) →
      todoistWithRetry f =
        (f todoistMaxRetries,
          (List.range todoistMaxRetries).map (fun i => todoistBaseDelayMs * 2 ^ i))) ∧
    (∀ (α : Type) (f : Nat → Except ProviderError α) (e : ProviderError),
      f 0 = Except.error e → isRetryableStatus (notionStatusOf e) = false →
      notionWithRetry f = (Except.error e, [])) ∧
    (∀ (α : Type) (f : Nat → Except ProviderError α) (e : ProviderError),
      f 0 = Except.error e → isRetryableStatus (todoistStatusOf e) = false →
      todoistWithRetry f = (Except.error e, [])) := by
  refine ⟨?_, ?_, ?_, ?_, ?_, ?_⟩
  · intro α f k v hk hfail hok
    rw [notionWithRetry, withRetry,
      withRetryGo_ok_after_failures notionStatusOf notionBaseDelayMs f v k 0
        notionMaxRetries hk (fun i hi => by simpa using hfail i hi)
        (by simpa using hok),
      backoffDelays_eq_map]
    simp only [Nat.zero_add]
  · intro α f k v hk hfail hok
    rw [todoistWithRetry, withRetry,
      withRetryGo_ok_after_failures todoistStatusOf todoistBaseDelayMs f v k 0
        todoistMaxRetries hk (fun i hi => by simpa using hfail i hi)
        (by simpa using hok),
      backoffDelays_eq_map]
    simp only [Nat.zero_add]
  · intro α f hfail
    rw [notionWithRetry, withRetry,
      withRetryGo_exhaust notionStatusOf notionBaseDelayMs f notionMaxRetries 0
        (fun i hi => by simpa using hfail i hi),
      backoffDelays_eq_map]
    simp only [Nat.zero_add]
  · intro α f hfail
    rw [todoistWithRetry, withRetry,
      withRetryGo_exhaust todoistStatusOf todoistBaseDelayMs f todoistMaxRetries 0
        (fun i hi => by simpa using hfail i hi),
      backoffDelays_eq_map]
    simp only [Nat.zero_add]
  · intro α f e hf hr
    exact withRetryGo_nonretryable notionStatusOf notionBaseDelayMs f
      notionMaxRetries 0 e hf hr
  · intro α f e hf hr
    exact withRetryGo_nonretryable todoistStatusOf todoistBaseDelayMs f
      todoistMaxRetries 0 e hf hr

/-- Witness for C3: two 429 failures then a success return the success
value with delays 400 ms and 800 ms under the Notion policy. -/
theorem withRetry_policy_witness :
    notionWithRetry (fun i =>
        if i < 2 then (Except.error { status := some 429 } : Except ProviderError Nat)
        else Except.ok 7) =
      (Except.ok 7, [400, 800]) := by
  have h := withRetry_policy.1 Nat
    (fun i =>
      if i < 2 then (Except.error { status := some 429 } : Except ProviderError Nat)
      else Except.ok 7)
    2 7 (by decide) (by decide) rfl
  simpa [List.range_succ] using h

end MyTodoo
